import Mathlib

/-!
# Bookmark handlers of the media-card components

A shallow embedding of the bookmark logic of
`frontend/src/components/Card.jsx` (the grid surface) and
`frontend/src/components/Trending.jsx` (the carousel surface):
the membership test `isItemBookMarked`, the three click handlers
`handleBookmarkClick`, `handleDeleteClick`, `bookmarkDeleteClick`, and the
choice of the handler bound to the bookmark icon.

The hooks a component reads (`userInfo`, the cached `bookmarks`, the
`pathname`) are explicit arguments.  A handler is an `async` function; its
body is embedded as a `Prog`, a tree of effects in which `try`/`catch`, a
thrown exception and the suspension on the awaited store call are explicit.
-/

namespace Bookmarks

/-! ## JavaScript values -/

/-- The JavaScript values the components handle: data parsed from a response
or from storage, plus `undefined`.  Numbers are the integers (the identifiers
served by the media catalogue); an object, or an array, carries its identity
`ref`, which is what `===` compares, and its own properties. -/
inductive JSVal where
  | undefined
  | null
  | bool (b : Bool)
  | num (n : Int)
  | str (s : String)
  | obj (ref : Nat) (props : List (String × JSVal))

/-- The own properties of an object, as written in an object literal. -/
abbrev Props := List (String × JSVal)

namespace JSVal

/-- Truthiness, as tested by `if`, `!`, `||` and `? :`. -/
def truthy : JSVal → Bool
  | undefined => false
  | null => false
  | bool b => b
  | num n => n != 0
  | str s => s != ""
  | obj _ _ => true

/-- Is the value `null` or `undefined`. -/
def isNullish : JSVal → Bool
  | undefined => true
  | null => true
  | _ => false

/-- The operator `a || b`. -/
def or (a b : JSVal) : JSVal :=
  if a.truthy then a else b

/-- The operator `a === b`: same type and same primitive value, or the same
object. -/
def strictEq : JSVal → JSVal → Bool
  | undefined, undefined => true
  | null, null => true
  | bool a, bool b => a == b
  | num a, num b => a == b
  | str a, str b => a == b
  | obj r _, obj s _ => r == s
  | _, _ => false

end JSVal

open JSVal

/-- Reading property `key` of an object: its value, `undefined` when the
object has no such property. -/
def Props.get (props : Props) (key : String) : JSVal :=
  match props.lookup key with
  | some v => v
  | none => undefined

/-- The `TypeError` raised by a property read on `null` or `undefined`.  It has
a `name` and a `message`, and no `data`. -/
def typeError (key : String) : JSVal :=
  obj 0 [("name", str "TypeError"),
         ("message", str ("Cannot read properties of a nullish value, reading " ++ key))]

/-- The member access `v.key`.  It throws on `null` and `undefined`; on a
boolean, a number or a string none of the property names the components read
this way exists, so the read gives `undefined` (the one property of a string
they read, `length`, goes through `optLength`). -/
def JSVal.getProp (v : JSVal) (key : String) : Except JSVal JSVal :=
  match v with
  | undefined => .error (typeError key)
  | null => .error (typeError key)
  | obj _ props => .ok (Props.get props key)
  | _ => .ok undefined

/-- The optional member access `v?.key`: `undefined` on `null` and
`undefined`, the member access otherwise. -/
def JSVal.optChain (v : JSVal) (key : String) : JSVal :=
  match v with
  | obj _ props => Props.get props key
  | _ => undefined

/-- The `length` of a string: its number of UTF-16 code units, two for a
character outside the basic plane. -/
def utf16Length (s : String) : Nat :=
  (s.data.map fun c => if c.toNat < 65536 then 1 else 2).sum

/-- The optional member access `v?.length`: `undefined` on `null` and
`undefined`, the length of a string, the `length` property of an object, and
`undefined` on a boolean or a number. -/
def JSVal.optLength : JSVal → JSVal
  | str s => num (utf16Length s)
  | obj _ props => Props.get props "length"
  | _ => undefined

/-- The comparison `v < n` of a value with the number `n`.  `undefined`
converts to `NaN`, which is below nothing; `null` and `false` convert to `0`,
`true` to `1`.  A string or an object is first converted by the engine
(`ToPrimitive`, then `ToNumber`), which may throw; `convert` is what the
engine answers to `v < n` for such an operand. -/
def JSVal.lessThan (convert : JSVal → Int → Except JSVal Bool) (v : JSVal) (n : Int) :
    Except JSVal Bool :=
  match v with
  | undefined => .ok false
  | null => .ok (decide (0 < n))
  | bool b => .ok (decide ((if b then 1 else 0) < n))
  | num m => .ok (decide (m < n))
  | str _ => convert v n
  | obj _ _ => convert v n

/-- The guard of the `items.map` callback in both components,
`item.title?.length < 22 || item.name?.length < 22`: only an item that passes
it is displayed.  `item.name` is read only when the first test fails. -/
def isDisplayed (convert : JSVal → Int → Except JSVal Bool) (item : JSVal) :
    Except JSVal Bool := do
  let title ← item.getProp "title"
  let shortTitle ← title.optLength.lessThan convert 22
  if shortTitle then
    pure true
  else
    let name ← item.getProp "name"
    name.optLength.lessThan convert 22

/-! ## Effects and runs -/

/-- What a handler does to the outside: a call of one of the two mutation
triggers with its argument object, a toast, or a refetch of the bookmarks
query. -/
inductive Effect where
  | addBookmark (data : Props)
  | deleteBookmark (arg : Props)
  | toastSuccess (message : JSVal)
  | toastError (message : JSVal)
  | refetch

namespace Effect

/-- Is the effect a call to the store (`addBookmark` or `deleteBookmark`). -/
def isStoreCall : Effect → Bool
  | addBookmark _ => true
  | deleteBookmark _ => true
  | _ => false

/-- Is the effect a `toast.success`. -/
def isSuccessToast : Effect → Bool
  | toastSuccess _ => true
  | _ => false

/-- Is the effect a `toast.error`. -/
def isErrorToast : Effect → Bool
  | toastError _ => true
  | _ => false

/-- Is the effect a `refetch()`. -/
def isRefetch : Effect → Bool
  | refetch => true
  | _ => false

end Effect

/-- How the promise of `trigger(arg).unwrap()` settles: fulfilled with the
response, or rejected with an error value. -/
abbrev Outcome := Except JSVal JSVal

/-- The control flow of an `async` handler body.
`ret` : the body ends.  `throw e` : an exception (a rejection of the handler)
carrying `e`.  `emit e k` : perform `e`, go on with `k`.
`await call k` : issue the store call `call`, suspend until its promise has
settled, go on with `k` applied to the way it settled. -/
inductive Prog where
  | ret
  | throw (e : JSVal)
  | emit (e : Effect) (k : Prog)
  | await (call : Effect) (k : Outcome → Prog)

namespace Prog

/-- The statement `try body catch (error) handler`. -/
def tryCatch : Prog → (JSVal → Prog) → Prog
  | ret, _ => ret
  | throw e, handler => handler e
  | emit e k, handler => emit e (tryCatch k handler)
  | await call k, handler => await call fun o => tryCatch (k o) handler

/-- The expression `await trigger(arg).unwrap()`: a fulfilled promise gives
its value to the rest of the body, a rejected one throws its error. -/
def awaitUnwrap (call : Effect) (k : JSVal → Prog) : Prog :=
  await call fun
    | .ok v => k v
    | .error e => throw e

/-- The effects performed before the handler first suspends (all of them
when it never suspends); the awaited call is the last of them. -/
def sync : Prog → List Effect
  | ret => []
  | throw _ => []
  | emit e k => e :: sync k
  | await call _ => [call]

end Prog

/-- How a handler call ends: the effects it performed, in order, and the
error it rejected with, if any. -/
structure Completion where
  effects : List Effect
  thrown : Option JSVal

/-- Runs a handler to its end, the store call it awaits settling with `o`. -/
def Prog.exec (o : Outcome) : Prog → Completion
  | ret => ⟨[], none⟩
  | throw e => ⟨[], some e⟩
  | emit e k => ⟨e :: (exec o k).effects, (exec o k).thrown⟩
  | await call k => ⟨call :: (exec o (k o)).effects, (exec o (k o)).thrown⟩

/-- Lifts the evaluation of an expression that may throw into a handler
body. -/
def Prog.eval {α : Type} (e : Except JSVal α) (k : α → Prog) : Prog :=
  match e with
  | .ok a => k a
  | .error err => Prog.throw err

/-- The line `const userId = userInfo?._id`. -/
def userId (userInfo : JSVal) : JSVal :=
  userInfo.optChain "_id"

/-- The argument of `toast.error` in a `catch` block:
`error?.data?.message || fallback`. -/
def errorMessage (error : JSVal) (fallback : String) : JSVal :=
  (((error.optChain "data").optChain "message")).or (str fallback)

/-- The object literal `bookmarkData` of `handleBookmarkClick`; the reads of
`item` happen in source order and the first one throws when `item` is
nullish. -/
def bookmarkData (userInfo item : JSVal) : Except JSVal Props := do
  let id ← item.getProp "id"
  let backdrop_path ← item.getProp "backdrop_path"
  let title ← item.getProp "title"
  let name ← item.getProp "name"
  let release_date ← item.getProp "release_date"
  let first_air_date ← item.getProp "first_air_date"
  pure [("user", userId userInfo),
        ("itemId", id),
        ("backdrop_path", backdrop_path),
        ("title", title.or null),
        ("name", name.or null),
        ("release_date", release_date.or null),
        ("first_air_date", first_air_date.or null)]

/-- The argument `{ user: userId, itemId: item[key] }` of `deleteBookmark`. -/
def deleteArg (userInfo item : JSVal) (key : String) : Except JSVal Props := do
  let id ← item.getProp key
  pure [("user", userId userInfo), ("itemId", id)]

/-- The handler bound to the bookmark icon of a rendered item. -/
inductive Action where
  | bookmarkDeleteClick
  | handleDeleteClick
  | handleBookmarkClick
  deriving DecidableEq, Repr

/-- The method `pathname.includes(pattern)` on the characters of the two
strings: does `pattern` occur in `pathname` as a contiguous run. -/
def includesChars : List Char → List Char → Bool
  | [], pattern => pattern.isEmpty
  | c :: rest, pattern => pattern.isPrefixOf (c :: rest) || includesChars rest pattern

/-! ## The grid surface, `Card.jsx` -/

namespace Card

/-- The constant `isBookmarksInUrl`. -/
def isBookmarksInUrl (pathname : String) : Bool :=
  includesChars pathname.data "/bookmarks".data

/-- The function `isItemBookMarked`:
`bookmarks?.some((bookmark) => bookmark.itemId === itemId)`, where
`bookmarks` is `none` while the query has no data. -/
def isItemBookMarked (bookmarks : Option (List Props)) (itemId : JSVal) : JSVal :=
  match bookmarks with
  | none => undefined
  | some list => bool (list.any fun bookmark => strictEq (bookmark.get "itemId") itemId)

/-- The handler `handleBookmarkClick`. -/
def handleBookmarkClick (userInfo item : JSVal) : Prog :=
  if !userInfo.truthy then
    .emit (.toastError (str "You must be logged in to add bookmarks")) .ret
  else
    Prog.tryCatch
      (Prog.eval (bookmarkData userInfo item) fun data =>
        Prog.awaitUnwrap (.addBookmark data) fun _ =>
          .emit (.toastSuccess (str "Bookmark added successfully")) (.emit .refetch .ret))
      (fun error => .emit (.toastError (errorMessage error "Error adding bookmark")) .ret)

/-- The handler `handleDeleteClick`. -/
def handleDeleteClick (userInfo item : JSVal) : Prog :=
  Prog.tryCatch
    (Prog.eval (deleteArg userInfo item "id") fun arg =>
      Prog.awaitUnwrap (.deleteBookmark arg) fun _ =>
        .emit (.toastSuccess (str "Bookmark removed successfully")) (.emit .refetch .ret))
    (fun error => .emit (.toastError (errorMessage error "Error removing bookmark")) .ret)

/-- The handler `bookmarkDeleteClick`. -/
def bookmarkDeleteClick (userInfo item : JSVal) : Prog :=
  Prog.tryCatch
    (Prog.eval (deleteArg userInfo item "itemId") fun arg =>
      Prog.awaitUnwrap (.deleteBookmark arg) fun _ =>
        .emit (.toastSuccess (str "Bookmark removed successfully")) (.emit .refetch .ret))
    (fun error => .emit (.toastError (errorMessage error "Error removing bookmark")) .ret)

/-- The bookmark icon the `items.map` callback renders for `item`: `none`
when the guard fails and nothing is rendered for the item, otherwise the
handler the `onClick` of the icon calls, chosen by the conditional
`isBookmarksInUrl ? .. : isItemBookMarked(item.id) ? .. : ..`; `item.id` is
read only in its second test.  The callback throws when a read of `item` or
the guard throws. -/
def bookmarkIcon (convert : JSVal → Int → Except JSVal Bool) (pathname : String)
    (bookmarks : Option (List Props)) (item : JSVal) : Except JSVal (Option Action) := do
  let displayed ← isDisplayed convert item
  if displayed then
    if isBookmarksInUrl pathname then
      pure (some .bookmarkDeleteClick)
    else
      let id ← item.getProp "id"
      if (isItemBookMarked bookmarks id).truthy then
        pure (some .handleDeleteClick)
      else
        pure (some .handleBookmarkClick)
  else
    pure none

end Card

/-! ## The carousel surface, `Trending.jsx` -/

namespace Trending

/-- The function `isItemBookMarked`. -/
def isItemBookMarked (bookmarks : Option (List Props)) (itemId : JSVal) : JSVal :=
  match bookmarks with
  | none => undefined
  | some list => bool (list.any fun bookmark => strictEq (bookmark.get "itemId") itemId)

/-- The handler `handleBookmarkClick`. -/
def handleBookmarkClick (userInfo item : JSVal) : Prog :=
  if !userInfo.truthy then
    .emit (.toastError (str "You must be logged in to add bookmarks")) .ret
  else
    Prog.tryCatch
      (Prog.eval (bookmarkData userInfo item) fun data =>
        Prog.awaitUnwrap (.addBookmark data) fun _ =>
          .emit (.toastSuccess (str "Bookmark added successfully")) (.emit .refetch .ret))
      (fun error => .emit (.toastError (errorMessage error "Error adding bookmark")) .ret)

/-- The handler `handleDeleteClick`. -/
def handleDeleteClick (userInfo item : JSVal) : Prog :=
  Prog.tryCatch
    (Prog.eval (deleteArg userInfo item "id") fun arg =>
      Prog.awaitUnwrap (.deleteBookmark arg) fun _ =>
        .emit (.toastSuccess (str "Bookmark removed successfully")) (.emit .refetch .ret))
    (fun error => .emit (.toastError (errorMessage error "Error removing bookmark")) .ret)

/-- The bookmark icon the `items.map` callback renders for `item`: `none`
when the guard fails and nothing is rendered for the item, otherwise the
handler the `onClick` of the icon calls, chosen by the conditional
`isItemBookMarked(item.id) ? .. : ..`. -/
def bookmarkIcon (convert : JSVal → Int → Except JSVal Bool)
    (bookmarks : Option (List Props)) (item : JSVal) : Except JSVal (Option Action) := do
  let displayed ← isDisplayed convert item
  if displayed then
    let id ← item.getProp "id"
    if (isItemBookMarked bookmarks id).truthy then
      pure (some .handleDeleteClick)
    else
      pure (some .handleBookmarkClick)
  else
    pure none

end Trending

/-! ## The store and the cache -/

/-- Modelled from the spec: the remote store and the cache of the bookmarks
query, which are not part of the two components.  `store` is the list of the
bookmarks the store holds for the current user; `bookmarks` is the cached
snapshot the components read, `none` while nothing has been fetched. -/
structure World where
  store : List Props
  bookmarks : Option (List Props)

/-- Modelled from the spec: what one effect of a handler whose store call is
fulfilled does to the store and the cache.  A successful add inserts the
payload it was sent; a successful remove deletes what the store holds under
the item id it was sent (at most one bookmark exists per item id); a refetch
replaces the cached snapshot by the list the store holds at that moment;
toasts touch neither. -/
def World.step (w : World) : Effect → World
  | .addBookmark data => { w with store := w.store ++ [data] }
  | .deleteBookmark arg =>
      { w with store := w.store.filter fun b => !strictEq (b.get "itemId") (arg.get "itemId") }
  | .refetch => { w with bookmarks := some w.store }
  | .toastSuccess _ => w
  | .toastError _ => w

/-- Modelled from the spec: the store and the cache after the effects of a
handler, taken in the order they were performed. -/
def World.after (w : World) (effects : List Effect) : World :=
  effects.foldl World.step w

/-! ## Lemmas on values -/

theorem strictEq_self (v : JSVal) : strictEq v v = true := by
  cases v <;> simp [strictEq]

theorem getProp_eq_optChain (item : JSVal) (key : String) (h : item.isNullish = false) :
    item.getProp key = .ok (item.optChain key) := by
  cases item <;> simp_all [JSVal.getProp, JSVal.optChain, JSVal.isNullish]

theorem isNullish_of_getProp {item v : JSVal} {key : String} (h : item.getProp key = .ok v) :
    item.isNullish = false := by
  cases item <;> simp_all [JSVal.getProp, JSVal.isNullish]

theorem optChain_of_getProp {item v : JSVal} {key : String} (h : item.getProp key = .ok v) :
    item.optChain key = v := by
  cases item <;> simp_all [JSVal.getProp, JSVal.optChain]

theorem bookmarkData_eq (userInfo item : JSVal) (h : item.isNullish = false) :
    bookmarkData userInfo item = .ok
      [("user", userId userInfo),
       ("itemId", item.optChain "id"),
       ("backdrop_path", item.optChain "backdrop_path"),
       ("title", (item.optChain "title").or null),
       ("name", (item.optChain "name").or null),
       ("release_date", (item.optChain "release_date").or null),
       ("first_air_date", (item.optChain "first_air_date").or null)] := by
  simp only [bookmarkData, getProp_eq_optChain item _ h]
  rfl

theorem deleteArg_eq (userInfo item : JSVal) (key : String) (h : item.isNullish = false) :
    deleteArg userInfo item key = .ok [("user", userId userInfo), ("itemId", item.optChain key)] := by
  simp only [deleteArg, getProp_eq_optChain item _ h]
  rfl

theorem bookmarkData_nullish (userInfo item : JSVal) (h : item.isNullish = true) :
    bookmarkData userInfo item = .error (typeError "id") := by
  cases item <;> simp_all [JSVal.isNullish] <;> rfl

theorem deleteArg_nullish (userInfo item : JSVal) (key : String) (h : item.isNullish = true) :
    deleteArg userInfo item key = .error (typeError key) := by
  cases item <;> simp_all [JSVal.isNullish] <;> rfl

theorem isNullish_of_isDisplayed {convert : JSVal → Int → Except JSVal Bool} {item : JSVal}
    {b : Bool} (h : isDisplayed convert item = .ok b) : item.isNullish = false := by
  cases item <;> first | rfl | (simp [isDisplayed, JSVal.getProp, bind, Except.bind] at h)

theorem userId_of_falsy (userInfo : JSVal) (h : userInfo.truthy = false) :
    userId userInfo = undefined := by
  cases userInfo <;> simp_all [userId, JSVal.optChain, JSVal.truthy]

/-! ## The auth gate -/

/-- C1: with no authenticated user (`userInfo` is `null`, `undefined` or any
other falsy value), `handleBookmarkClick` of the grid and of the carousel,
on any item and whatever the store would answer, performs exactly one effect,
the error toast `You must be logged in to add bookmarks`: no `addBookmark`
call, no refetch, and the handler does not reject. -/
theorem C1_auth_gate_on_add (userInfo item : JSVal) (o : Outcome)
    (h : userInfo.truthy = false) :
    (Card.handleBookmarkClick userInfo item).exec o
        = ⟨[.toastError (str "You must be logged in to add bookmarks")], none⟩
      ∧ (Trending.handleBookmarkClick userInfo item).exec o
        = ⟨[.toastError (str "You must be logged in to add bookmarks")], none⟩ := by
  simp [Card.handleBookmarkClick, Trending.handleBookmarkClick, h, Prog.exec]

theorem C1_auth_gate_on_add_witness :
    JSVal.null.truthy = false
      ∧ (Card.handleBookmarkClick null (obj 1 [("id", str "7"), ("title", str "Dune")])).exec
            (.ok undefined)
          = ⟨[.toastError (str "You must be logged in to add bookmarks")], none⟩
      ∧ (Trending.handleBookmarkClick null (obj 1 [("id", str "7"), ("title", str "Dune")])).exec
            (.ok undefined)
          = ⟨[.toastError (str "You must be logged in to add bookmarks")], none⟩ :=
  ⟨rfl, C1_auth_gate_on_add null (obj 1 [("id", str "7"), ("title", str "Dune")])
    (.ok undefined) rfl⟩

/-- C2, as stated, fails: with `userInfo = null` the two remove handlers of
the grid and the remove handler of the carousel do call `deleteBookmark`,
with `user: undefined`. -/
theorem C2_anonymous_remove_reaches_store :
    (Card.handleDeleteClick null (obj 1 [("id", str "7")])).sync
        = [.deleteBookmark [("user", undefined), ("itemId", str "7")]]
      ∧ (Card.bookmarkDeleteClick null (obj 2 [("itemId", str "7")])).sync
        = [.deleteBookmark [("user", undefined), ("itemId", str "7")]]
      ∧ (Trending.handleDeleteClick null (obj 1 [("id", str "7")])).sync
        = [.deleteBookmark [("user", undefined), ("itemId", str "7")]] := by
  refine ⟨?_, ?_, ?_⟩ <;> rfl

/-- C2, amended: with no authenticated user, `handleBookmarkClick` (grid and
carousel) ends after its error toast without calling the store, for every item
and store answer; the remove handlers have no such check: on an item that is
not nullish, `handleDeleteClick` (grid and carousel) and `bookmarkDeleteClick`
issue one `deleteBookmark` call, whose `user` is `undefined`. -/
theorem C2_only_add_is_gated (userInfo item : JSVal) (o : Outcome)
    (h : userInfo.truthy = false) :
    ((Card.handleBookmarkClick userInfo item).exec o).effects.any Effect.isStoreCall = false
      ∧ ((Trending.handleBookmarkClick userInfo item).exec o).effects.any Effect.isStoreCall
          = false
      ∧ (item.isNullish = false →
          (Card.handleDeleteClick userInfo item).sync
            = [.deleteBookmark [("user", undefined), ("itemId", item.optChain "id")]]
          ∧ (Trending.handleDeleteClick userInfo item).sync
            = [.deleteBookmark [("user", undefined), ("itemId", item.optChain "id")]]
          ∧ (Card.bookmarkDeleteClick userInfo item).sync
            = [.deleteBookmark [("user", undefined), ("itemId", item.optChain "itemId")]]) := by
  refine ⟨?_, ?_, fun hi => ?_⟩
  · simp [Card.handleBookmarkClick, h, Prog.exec, Effect.isStoreCall]
  · simp [Trending.handleBookmarkClick, h, Prog.exec, Effect.isStoreCall]
  · simp [Card.handleDeleteClick, Trending.handleDeleteClick, Card.bookmarkDeleteClick,
      deleteArg_eq _ _ _ hi, userId_of_falsy _ h, Prog.eval, Prog.awaitUnwrap, Prog.tryCatch,
      Prog.sync]

theorem C2_only_add_is_gated_witness :
    JSVal.null.truthy = false ∧ (obj 1 [("id", str "7")]).isNullish = false
      ∧ (Card.handleDeleteClick null (obj 1 [("id", str "7")])).sync
          = [.deleteBookmark [("user", undefined),
              ("itemId", (obj 1 [("id", str "7")]).optChain "id")]] :=
  ⟨rfl, rfl,
    ((C2_only_add_is_gated null (obj 1 [("id", str "7")]) (.ok undefined) rfl).2.2 rfl).1⟩

/-! ## Effects of a click -/

theorem or_eq_left (a b : JSVal) (h : a.truthy = true) : a.or b = a := by
  simp [JSVal.or, h]

theorem or_eq_right (a b : JSVal) (h : a.truthy = false) : a.or b = b := by
  simp [JSVal.or, h]

/-- C3: for an authenticated user and an item that reaches the store call
(it is not nullish), each handler first issues exactly one mutation call and
suspends on it (`sync` is that call alone); when the call is fulfilled the
whole trace is that call, then one success toast, then one refetch, with no
error toast and no rejection.  The refetch is thus performed after the
suspension on the mutation has ended. -/
theorem C3_success_path_effects (userInfo item v : JSVal)
    (hu : userInfo.truthy = true) (hi : item.isNullish = false) :
    ((Card.handleBookmarkClick userInfo item).sync
        = [.addBookmark
            [("user", userId userInfo), ("itemId", item.optChain "id"),
             ("backdrop_path", item.optChain "backdrop_path"),
             ("title", (item.optChain "title").or null),
             ("name", (item.optChain "name").or null),
             ("release_date", (item.optChain "release_date").or null),
             ("first_air_date", (item.optChain "first_air_date").or null)]]
      ∧ (Card.handleBookmarkClick userInfo item).exec (.ok v)
        = ⟨(Card.handleBookmarkClick userInfo item).sync
            ++ [.toastSuccess (str "Bookmark added successfully"), .refetch], none⟩)
    ∧ ((Trending.handleBookmarkClick userInfo item).sync
        = [.addBookmark
            [("user", userId userInfo), ("itemId", item.optChain "id"),
             ("backdrop_path", item.optChain "backdrop_path"),
             ("title", (item.optChain "title").or null),
             ("name", (item.optChain "name").or null),
             ("release_date", (item.optChain "release_date").or null),
             ("first_air_date", (item.optChain "first_air_date").or null)]]
      ∧ (Trending.handleBookmarkClick userInfo item).exec (.ok v)
        = ⟨(Trending.handleBookmarkClick userInfo item).sync
            ++ [.toastSuccess (str "Bookmark added successfully"), .refetch], none⟩)
    ∧ ((Card.handleDeleteClick userInfo item).sync
        = [.deleteBookmark [("user", userId userInfo), ("itemId", item.optChain "id")]]
      ∧ (Card.handleDeleteClick userInfo item).exec (.ok v)
        = ⟨(Card.handleDeleteClick userInfo item).sync
            ++ [.toastSuccess (str "Bookmark removed successfully"), .refetch], none⟩)
    ∧ ((Trending.handleDeleteClick userInfo item).sync
        = [.deleteBookmark [("user", userId userInfo), ("itemId", item.optChain "id")]]
      ∧ (Trending.handleDeleteClick userInfo item).exec (.ok v)
        = ⟨(Trending.handleDeleteClick userInfo item).sync
            ++ [.toastSuccess (str "Bookmark removed successfully"), .refetch], none⟩)
    ∧ ((Card.bookmarkDeleteClick userInfo item).sync
        = [.deleteBookmark [("user", userId userInfo), ("itemId", item.optChain "itemId")]]
      ∧ (Card.bookmarkDeleteClick userInfo item).exec (.ok v)
        = ⟨(Card.bookmarkDeleteClick userInfo item).sync
            ++ [.toastSuccess (str "Bookmark removed successfully"), .refetch], none⟩) := by
  simp [Card.handleBookmarkClick, Trending.handleBookmarkClick, Card.handleDeleteClick,
    Trending.handleDeleteClick, Card.bookmarkDeleteClick, hu, Prog.exec,
    bookmarkData_eq _ _ hi, deleteArg_eq _ _ _ hi, Prog.eval, Prog.awaitUnwrap, Prog.tryCatch,
    Prog.sync]

theorem C3_success_path_effects_witness :
    (obj 0 [("_id", str "u1")]).truthy = true
      ∧ (obj 1 [("id", str "7"), ("title", str "Dune")]).isNullish = false
      ∧ (Card.handleDeleteClick (obj 0 [("_id", str "u1")])
            (obj 1 [("id", str "7"), ("title", str "Dune")])).exec (.ok null)
          = ⟨(Card.handleDeleteClick (obj 0 [("_id", str "u1")])
                (obj 1 [("id", str "7"), ("title", str "Dune")])).sync
              ++ [.toastSuccess (str "Bookmark removed successfully"), .refetch], none⟩ :=
  ⟨rfl, rfl,
    (C3_success_path_effects (obj 0 [("_id", str "u1")])
      (obj 1 [("id", str "7"), ("title", str "Dune")]) null rfl rfl).2.2.1.2⟩

/-- C4: for an authenticated user, any item and any answer of the store, no
handler rejects (`thrown` is `none`).  When the item reaches the store call
(it is not nullish) and the call is rejected with any value `error`, the whole
trace of each handler is the one store call it issued followed by exactly one
error toast: no success toast, no refetch.  The toast carries
`error.data.message` when that is truthy, in particular when it is a non-empty
string, and the fallback (`Error adding bookmark`, `Error removing bookmark`)
when it is falsy, in particular when `error` has no `data`, `data` has no
`message`, or the message is the empty string. -/
theorem C4_failure_path_effects (userInfo item error : JSVal) (hu : userInfo.truthy = true) :
    (∀ o : Outcome,
        ((Card.handleBookmarkClick userInfo item).exec o).thrown = none
        ∧ ((Trending.handleBookmarkClick userInfo item).exec o).thrown = none
        ∧ ((Card.handleDeleteClick userInfo item).exec o).thrown = none
        ∧ ((Trending.handleDeleteClick userInfo item).exec o).thrown = none
        ∧ ((Card.bookmarkDeleteClick userInfo item).exec o).thrown = none)
    ∧ (item.isNullish = false →
        ((Card.handleBookmarkClick userInfo item).sync.length = 1
          ∧ (Card.handleBookmarkClick userInfo item).sync.all Effect.isStoreCall = true
          ∧ (Card.handleBookmarkClick userInfo item).exec (.error error)
            = ⟨(Card.handleBookmarkClick userInfo item).sync
                ++ [.toastError (errorMessage error "Error adding bookmark")], none⟩)
        ∧ ((Trending.handleBookmarkClick userInfo item).sync.length = 1
          ∧ (Trending.handleBookmarkClick userInfo item).sync.all Effect.isStoreCall = true
          ∧ (Trending.handleBookmarkClick userInfo item).exec (.error error)
            = ⟨(Trending.handleBookmarkClick userInfo item).sync
                ++ [.toastError (errorMessage error "Error adding bookmark")], none⟩)
        ∧ ((Card.handleDeleteClick userInfo item).sync.length = 1
          ∧ (Card.handleDeleteClick userInfo item).sync.all Effect.isStoreCall = true
          ∧ (Card.handleDeleteClick userInfo item).exec (.error error)
            = ⟨(Card.handleDeleteClick userInfo item).sync
                ++ [.toastError (errorMessage error "Error removing bookmark")], none⟩)
        ∧ ((Trending.handleDeleteClick userInfo item).sync.length = 1
          ∧ (Trending.handleDeleteClick userInfo item).sync.all Effect.isStoreCall = true
          ∧ (Trending.handleDeleteClick userInfo item).exec (.error error)
            = ⟨(Trending.handleDeleteClick userInfo item).sync
                ++ [.toastError (errorMessage error "Error removing bookmark")], none⟩)
        ∧ ((Card.bookmarkDeleteClick userInfo item).sync.length = 1
          ∧ (Card.bookmarkDeleteClick userInfo item).sync.all Effect.isStoreCall = true
          ∧ (Card.bookmarkDeleteClick userInfo item).exec (.error error)
            = ⟨(Card.bookmarkDeleteClick userInfo item).sync
                ++ [.toastError (errorMessage error "Error removing bookmark")], none⟩))
    ∧ (∀ fallback : String,
        (((error.optChain "data").optChain "message").truthy = true →
          errorMessage error fallback = (error.optChain "data").optChain "message")
        ∧ (((error.optChain "data").optChain "message").truthy = false →
          errorMessage error fallback = str fallback)
        ∧ (∀ s : String, (error.optChain "data").optChain "message" = str s → s ≠ "" →
          errorMessage error fallback = str s)
        ∧ ((error.optChain "data").optChain "message" = undefined →
          errorMessage error fallback = str fallback)
        ∧ ((error.optChain "data").optChain "message" = str "" →
          errorMessage error fallback = str fallback)) := by
  refine ⟨?_, ?_, ?_⟩
  · intro o
    cases hi : item.isNullish
    · cases o <;>
        simp [Card.handleBookmarkClick, Trending.handleBookmarkClick, Card.handleDeleteClick,
          Trending.handleDeleteClick, Card.bookmarkDeleteClick, hu, Prog.exec,
          bookmarkData_eq _ _ hi, deleteArg_eq _ _ _ hi, Prog.eval, Prog.awaitUnwrap,
          Prog.tryCatch]
    · simp [Card.handleBookmarkClick, Trending.handleBookmarkClick, Card.handleDeleteClick,
        Trending.handleDeleteClick, Card.bookmarkDeleteClick, hu, Prog.exec,
        bookmarkData_nullish _ _ hi, deleteArg_nullish _ _ _ hi, Prog.eval, Prog.tryCatch]
  · intro hi
    simp [Card.handleBookmarkClick, Trending.handleBookmarkClick, Card.handleDeleteClick,
      Trending.handleDeleteClick, Card.bookmarkDeleteClick, hu, Prog.exec,
      bookmarkData_eq _ _ hi, deleteArg_eq _ _ _ hi, Prog.eval, Prog.awaitUnwrap,
      Prog.tryCatch, Prog.sync, Effect.isStoreCall]
  · intro fallback
    refine ⟨fun h => or_eq_left _ _ h, fun h => or_eq_right _ _ h, ?_, ?_, ?_⟩
    · intro s hs hne
      simp [errorMessage, hs, JSVal.or, JSVal.truthy, hne]
    · intro hm
      simp [errorMessage, hm, JSVal.or, JSVal.truthy]
    · intro hm
      simp [errorMessage, hm, JSVal.or, JSVal.truthy]

theorem C4_failure_path_effects_witness :
    (obj 0 [("_id", str "u1")]).truthy = true
      ∧ (obj 1 [("id", str "7"), ("name", str "Dark")]).isNullish = false
      ∧ (Card.handleBookmarkClick (obj 0 [("_id", str "u1")])
            (obj 1 [("id", str "7"), ("name", str "Dark")])).exec
            (.error (obj 2 [("status", num 500), ("data", obj 3 [("message", str "")])]))
          = ⟨(Card.handleBookmarkClick (obj 0 [("_id", str "u1")])
                (obj 1 [("id", str "7"), ("name", str "Dark")])).sync
              ++ [.toastError (errorMessage
                    (obj 2 [("status", num 500), ("data", obj 3 [("message", str "")])])
                    "Error adding bookmark")], none⟩
      ∧ errorMessage (obj 2 [("status", num 500), ("data", obj 3 [("message", str "")])])
            "Error adding bookmark"
          = str "Error adding bookmark" :=
  ⟨rfl, rfl,
    ((C4_failure_path_effects (obj 0 [("_id", str "u1")])
      (obj 1 [("id", str "7"), ("name", str "Dark")])
      (obj 2 [("status", num 500), ("data", obj 3 [("message", str "")])]) rfl).2.1 rfl).1.2.2,
    ((C4_failure_path_effects (obj 0 [("_id", str "u1")])
      (obj 1 [("id", str "7"), ("name", str "Dark")])
      (obj 2 [("status", num 500), ("data", obj 3 [("message", str "")])]) rfl).2.2
        "Error adding bookmark").2.2.2.2 rfl⟩

/-- C5, as stated, fails: when `addBookmark` rejects with the conflict answer
of the store, `handleBookmarkClick` shows the error toast and issues no
refetch; when `deleteBookmark` rejects with the not-found answer, the remove
handlers issue no refetch either. -/
theorem C5_conflict_is_reported_as_error :
    (Card.handleBookmarkClick (obj 0 [("_id", str "u1")])
        (obj 1 [("id", str "7"), ("title", str "Dune"), ("release_date", str "2021-10-22")])).exec
        (.error (obj 2 [("status", num 409),
                        ("data", obj 3 [("message", str "Bookmark already exists")])]))
      = ⟨[.addBookmark
            [("user", str "u1"), ("itemId", str "7"), ("backdrop_path", undefined),
             ("title", str "Dune"), ("name", null), ("release_date", str "2021-10-22"),
             ("first_air_date", null)],
          .toastError (str "Bookmark already exists")], none⟩
    ∧ (Card.handleDeleteClick (obj 0 [("_id", str "u1")]) (obj 1 [("id", str "7")])).exec
        (.error (obj 2 [("status", num 404),
                        ("data", obj 3 [("message", str "Bookmark not found")])]))
      = ⟨[.deleteBookmark [("user", str "u1"), ("itemId", str "7")],
          .toastError (str "Bookmark not found")], none⟩
    ∧ (Card.bookmarkDeleteClick (obj 0 [("_id", str "u1")]) (obj 4 [("itemId", str "7")])).exec
        (.error (obj 2 [("status", num 404),
                        ("data", obj 3 [("message", str "Bookmark not found")])]))
      = ⟨[.deleteBookmark [("user", str "u1"), ("itemId", str "7")],
          .toastError (str "Bookmark not found")], none⟩ := by
  refine ⟨?_, ?_, ?_⟩ <;> rfl

/-- C5, amended: a conflict on add and a not-found on remove are handled like
every other rejection.  For an authenticated user, an item that reaches the
store call and any rejected value, the trace of each handler holds no success
toast and no refetch, and exactly one error toast. -/
theorem C5_every_rejection_is_an_error (userInfo item error : JSVal)
    (hu : userInfo.truthy = true) (hi : item.isNullish = false) :
    (((Card.handleBookmarkClick userInfo item).exec (.error error)).effects.any
          Effect.isSuccessToast = false
      ∧ ((Card.handleBookmarkClick userInfo item).exec (.error error)).effects.any
          Effect.isRefetch = false
      ∧ ((Card.handleBookmarkClick userInfo item).exec (.error error)).effects.countP
          Effect.isErrorToast = 1)
    ∧ (((Trending.handleBookmarkClick userInfo item).exec (.error error)).effects.any
          Effect.isSuccessToast = false
      ∧ ((Trending.handleBookmarkClick userInfo item).exec (.error error)).effects.any
          Effect.isRefetch = false
      ∧ ((Trending.handleBookmarkClick userInfo item).exec (.error error)).effects.countP
          Effect.isErrorToast = 1)
    ∧ (((Card.handleDeleteClick userInfo item).exec (.error error)).effects.any
          Effect.isSuccessToast = false
      ∧ ((Card.handleDeleteClick userInfo item).exec (.error error)).effects.any
          Effect.isRefetch = false
      ∧ ((Card.handleDeleteClick userInfo item).exec (.error error)).effects.countP
          Effect.isErrorToast = 1)
    ∧ (((Trending.handleDeleteClick userInfo item).exec (.error error)).effects.any
          Effect.isSuccessToast = false
      ∧ ((Trending.handleDeleteClick userInfo item).exec (.error error)).effects.any
          Effect.isRefetch = false
      ∧ ((Trending.handleDeleteClick userInfo item).exec (.error error)).effects.countP
          Effect.isErrorToast = 1)
    ∧ (((Card.bookmarkDeleteClick userInfo item).exec (.error error)).effects.any
          Effect.isSuccessToast = false
      ∧ ((Card.bookmarkDeleteClick userInfo item).exec (.error error)).effects.any
          Effect.isRefetch = false
      ∧ ((Card.bookmarkDeleteClick userInfo item).exec (.error error)).effects.countP
          Effect.isErrorToast = 1) := by
  simp [Card.handleBookmarkClick, Trending.handleBookmarkClick, Card.handleDeleteClick,
    Trending.handleDeleteClick, Card.bookmarkDeleteClick, hu, Prog.exec,
    bookmarkData_eq _ _ hi, deleteArg_eq _ _ _ hi, Prog.eval, Prog.awaitUnwrap,
    Prog.tryCatch, Effect.isSuccessToast, Effect.isRefetch, Effect.isErrorToast,
    List.countP_cons]

theorem C5_every_rejection_is_an_error_witness :
    (obj 0 [("_id", str "u1")]).truthy = true
      ∧ (obj 1 [("id", str "7"), ("title", str "Dune")]).isNullish = false
      ∧ ((Card.handleBookmarkClick (obj 0 [("_id", str "u1")])
            (obj 1 [("id", str "7"), ("title", str "Dune")])).exec
            (.error (obj 2 [("status", num 409),
              ("data", obj 3 [("message", str "Bookmark already exists")])]))).effects.any
          Effect.isRefetch = false :=
  ⟨rfl, rfl,
    (C5_every_rejection_is_an_error (obj 0 [("_id", str "u1")])
      (obj 1 [("id", str "7"), ("title", str "Dune")])
      (obj 2 [("status", num 409), ("data", obj 3 [("message", str "Bookmark already exists")])])
      rfl rfl).1.2.1⟩

/-- C6: whatever the user, when `item.id` and `bookmark.itemId` are the same
value `v`, `handleDeleteClick item` and `bookmarkDeleteClick bookmark` issue
the same call, `deleteBookmark` of `user: userId, itemId: v`. -/
theorem C6_dual_addressing (userInfo item bookmark v : JSVal)
    (hitem : item.getProp "id" = .ok v) (hbookmark : bookmark.getProp "itemId" = .ok v) :
    (Card.handleDeleteClick userInfo item).sync
        = [.deleteBookmark [("user", userId userInfo), ("itemId", v)]]
      ∧ (Card.bookmarkDeleteClick userInfo bookmark).sync
        = [.deleteBookmark [("user", userId userInfo), ("itemId", v)]] := by
  simp [Card.handleDeleteClick, Card.bookmarkDeleteClick,
    deleteArg_eq _ _ _ (isNullish_of_getProp hitem),
    deleteArg_eq _ _ _ (isNullish_of_getProp hbookmark),
    optChain_of_getProp hitem, optChain_of_getProp hbookmark,
    Prog.eval, Prog.awaitUnwrap, Prog.tryCatch, Prog.sync]

theorem C6_dual_addressing_witness :
    (Card.handleDeleteClick (obj 0 [("_id", str "u1")])
        (obj 1 [("id", str "42"), ("title", str "Dune")])).sync
        = [.deleteBookmark [("user", userId (obj 0 [("_id", str "u1")])), ("itemId", str "42")]]
      ∧ (Card.bookmarkDeleteClick (obj 0 [("_id", str "u1")])
        (obj 2 [("user", str "u1"), ("itemId", str "42"), ("title", str "Dune")])).sync
        = [.deleteBookmark [("user", userId (obj 0 [("_id", str "u1")])), ("itemId", str "42")]] :=
  C6_dual_addressing (obj 0 [("_id", str "u1")])
    (obj 1 [("id", str "42"), ("title", str "Dune")])
    (obj 2 [("user", str "u1"), ("itemId", str "42"), ("title", str "Dune")])
    (str "42") rfl rfl

/-! ## Membership and the cache -/

theorem any_filter_not (list : List Props) (p : Props → Bool) :
    (list.filter fun b => !p b).any p = false := by
  induction list with
  | nil => rfl
  | cons b rest ih =>
    cases hb : p b <;> simp [List.filter, hb, ih]

theorem includesChars_iff (s pattern : List Char) :
    includesChars s pattern = true ↔ ∃ before after, s = before ++ pattern ++ after := by
  induction s with
  | nil =>
    cases pattern <;> simp [includesChars]
  | cons c rest ih =>
    simp only [includesChars, Bool.or_eq_true, List.isPrefixOf_iff_prefix, ih]
    constructor
    · rintro (⟨after, h⟩ | ⟨before, after, h⟩)
      · exact ⟨[], after, by simp [h]⟩
      · exact ⟨c :: before, after, by simp [h]⟩
    · rintro ⟨before, after, h⟩
      cases before with
      | nil => exact Or.inl ⟨after, by simpa using h.symm⟩
      | cons d before =>
        simp only [List.cons_append, List.cons.injEq] at h
        exact Or.inr ⟨before, after, h.2⟩

/-- C7: take the store as the list of the bookmarks of the user and let a
fulfilled add insert the payload it was sent, a fulfilled remove delete what is
held under the item id it was sent, and the refetch replace the cached snapshot
by the list of the store.  Then for an authenticated user and an item whose
`id` reads as `id`, after a fulfilled `handleBookmarkClick item`
`isItemBookMarked id` is `true` on the new snapshot, and after a fulfilled
`handleDeleteClick item` it is `false`, whatever the store and the snapshot
were before; on the grid and on the carousel. -/
theorem C7_cache_consistency (w : World) (userInfo item id v : JSVal)
    (hu : userInfo.truthy = true) (hid : item.getProp "id" = .ok id) :
    Card.isItemBookMarked
        (w.after ((Card.handleBookmarkClick userInfo item).exec (.ok v)).effects).bookmarks id
        = bool true
      ∧ Card.isItemBookMarked
        (w.after ((Card.handleDeleteClick userInfo item).exec (.ok v)).effects).bookmarks id
        = bool false
      ∧ Trending.isItemBookMarked
        (w.after ((Trending.handleBookmarkClick userInfo item).exec (.ok v)).effects).bookmarks id
        = bool true
      ∧ Trending.isItemBookMarked
        (w.after ((Trending.handleDeleteClick userInfo item).exec (.ok v)).effects).bookmarks id
        = bool false := by
  have hi := isNullish_of_getProp hid
  have ho := optChain_of_getProp hid
  have hget : Props.get [("user", userId userInfo), ("itemId", id)] "itemId" = id := by
    simp [Props.get, List.lookup]
  simp [Card.handleBookmarkClick, Trending.handleBookmarkClick, Card.handleDeleteClick,
    Trending.handleDeleteClick, hu, Prog.exec, bookmarkData_eq _ _ hi, deleteArg_eq _ _ _ hi,
    Prog.eval, Prog.awaitUnwrap, Prog.tryCatch, World.after, World.step,
    Card.isItemBookMarked, Trending.isItemBookMarked, ho, hget, any_filter_not]
  simp [Props.get, List.lookup, strictEq_self]

theorem C7_cache_consistency_witness :
    (obj 0 [("_id", str "u1")]).truthy = true
      ∧ (obj 1 [("id", str "7"), ("title", str "Dune"),
            ("release_date", str "2021-10-22")]).getProp "id" = .ok (str "7")
      ∧ Card.isItemBookMarked
          ((World.mk [] (some [])).after
            ((Card.handleBookmarkClick (obj 0 [("_id", str "u1")])
              (obj 1 [("id", str "7"), ("title", str "Dune"),
                ("release_date", str "2021-10-22")])).exec (.ok null)).effects).bookmarks
          (str "7")
        = bool true :=
  ⟨rfl, rfl,
    (C7_cache_consistency (World.mk [] (some [])) (obj 0 [("_id", str "u1")])
      (obj 1 [("id", str "7"), ("title", str "Dune"), ("release_date", str "2021-10-22")])
      (str "7") null rfl rfl).1⟩

/-- C8: on the grid and on the carousel, `isItemBookMarked itemId` is `true`
exactly when a snapshot has been loaded and one of its bookmarks has an
`itemId` strictly equal to `itemId`; it is `false` on the empty snapshot and
`undefined` while no snapshot has been loaded. -/
theorem C8_membership_predicate (bookmarks : Option (List Props)) (itemId : JSVal) :
    (Card.isItemBookMarked bookmarks itemId = bool true
        ↔ ∃ list, bookmarks = some list
            ∧ ∃ bookmark ∈ list, strictEq (bookmark.get "itemId") itemId = true)
      ∧ (Trending.isItemBookMarked bookmarks itemId = bool true
        ↔ ∃ list, bookmarks = some list
            ∧ ∃ bookmark ∈ list, strictEq (bookmark.get "itemId") itemId = true)
      ∧ Card.isItemBookMarked (some []) itemId = bool false
      ∧ Trending.isItemBookMarked (some []) itemId = bool false
      ∧ Card.isItemBookMarked none itemId = undefined
      ∧ Trending.isItemBookMarked none itemId = undefined := by
  cases bookmarks <;>
    simp [Card.isItemBookMarked, Trending.isItemBookMarked, List.any_eq_true]

/-! ## The handler bound to the icon -/

/-- C9: on the grid, for every displayed item (one that passes the guard of
`items.map`) the icon is bound to exactly one handler.  When the path
contains `/bookmarks` it is `bookmarkDeleteClick`, for every snapshot (the
membership test is not evaluated).  When the path does not contain
`/bookmarks` it is `handleDeleteClick` when `isItemBookMarked item.id` is
`true`, and `handleBookmarkClick` otherwise. -/
theorem C9_affordance_selection (convert : JSVal → Int → Except JSVal Bool)
    (pathname : String) (bookmarks : Option (List Props)) (item : JSVal)
    (hd : isDisplayed convert item = .ok true) :
    ((∃ before after, pathname.data = before ++ "/bookmarks".data ++ after) →
        Card.bookmarkIcon convert pathname bookmarks item = .ok (some .bookmarkDeleteClick))
      ∧ ((¬ ∃ before after, pathname.data = before ++ "/bookmarks".data ++ after) →
          (Card.isItemBookMarked bookmarks (item.optChain "id") = bool true →
            Card.bookmarkIcon convert pathname bookmarks item = .ok (some .handleDeleteClick))
          ∧ (Card.isItemBookMarked bookmarks (item.optChain "id") ≠ bool true →
            Card.bookmarkIcon convert pathname bookmarks item
              = .ok (some .handleBookmarkClick))) := by
  have hi : item.isNullish = false := isNullish_of_isDisplayed hd
  constructor
  · intro h
    have hp : Card.isBookmarksInUrl pathname = true := (includesChars_iff _ _).2 h
    simp [Card.bookmarkIcon, hd, hp, bind, Except.bind, pure, Except.pure]
  · intro h
    have hp : Card.isBookmarksInUrl pathname = false := by
      cases hc : Card.isBookmarksInUrl pathname
      · rfl
      · exact absurd ((includesChars_iff _ _).1 hc) h
    constructor
    · intro hm
      simp [Card.bookmarkIcon, hd, hp, getProp_eq_optChain _ _ hi, hm, JSVal.truthy, bind,
        Except.bind, pure, Except.pure]
    · intro hm
      cases bookmarks with
      | none =>
        simp [Card.bookmarkIcon, hd, hp, getProp_eq_optChain _ _ hi, Card.isItemBookMarked,
          JSVal.truthy, bind, Except.bind, pure, Except.pure]
      | some list =>
        cases hany : list.any fun bookmark => strictEq (bookmark.get "itemId")
            (item.optChain "id")
        · simp [Card.bookmarkIcon, hd, hp, getProp_eq_optChain _ _ hi, Card.isItemBookMarked,
            JSVal.truthy, bind, Except.bind, pure, Except.pure, hany]
        · exact absurd (by simp [Card.isItemBookMarked, hany]) hm

theorem C9_affordance_selection_witness :
    (isDisplayed (fun _ _ => .ok false)
          (obj 1 [("itemId", str "7"), ("title", str "Dune"),
            ("release_date", str "2021-10-22")]) = .ok true
        ∧ "/bookmarks/movies".data = [] ++ "/bookmarks".data ++ "/movies".data
        ∧ Card.bookmarkIcon (fun _ _ => .ok false) "/bookmarks/movies" (some [])
            (obj 1 [("itemId", str "7"), ("title", str "Dune"),
              ("release_date", str "2021-10-22")])
          = .ok (some .bookmarkDeleteClick))
      ∧ (isDisplayed (fun _ _ => .ok false)
          (obj 2 [("id", str "7"), ("name", str "Dark"),
            ("first_air_date", str "2017-12-01")]) = .ok true
        ∧ (¬ ∃ before after, "/movies".data = before ++ "/bookmarks".data ++ after)
        ∧ Card.isItemBookMarked (some [[("user", str "u1"), ("itemId", str "7")]])
            ((obj 2 [("id", str "7"), ("name", str "Dark"),
              ("first_air_date", str "2017-12-01")]).optChain "id") = bool true
        ∧ Card.bookmarkIcon (fun _ _ => .ok false) "/movies"
            (some [[("user", str "u1"), ("itemId", str "7")]])
            (obj 2 [("id", str "7"), ("name", str "Dark"),
              ("first_air_date", str "2017-12-01")])
          = .ok (some .handleDeleteClick)) :=
  have hin : "/bookmarks/movies".data = [] ++ "/bookmarks".data ++ "/movies".data := by decide
  have hout : ¬ ∃ before after, "/movies".data = before ++ "/bookmarks".data ++ after :=
    fun h => Bool.false_ne_true
      ((by decide : includesChars "/movies".data "/bookmarks".data = false).symm.trans
        ((includesChars_iff _ _).2 h))
  ⟨⟨rfl, hin,
      (C9_affordance_selection (fun _ _ => .ok false) "/bookmarks/movies" (some [])
        (obj 1 [("itemId", str "7"), ("title", str "Dune"),
          ("release_date", str "2021-10-22")]) rfl).1 ⟨[], "/movies".data, hin⟩⟩,
    rfl, hout, rfl,
    ((C9_affordance_selection (fun _ _ => .ok false) "/movies"
        (some [[("user", str "u1"), ("itemId", str "7")]])
        (obj 2 [("id", str "7"), ("name", str "Dark"),
          ("first_air_date", str "2017-12-01")]) rfl).2 hout).1 rfl⟩

/-- C10: on a page whose path does not contain `/bookmarks`, the grid and the
carousel agree for every user, snapshot and item: `isItemBookMarked` has the
same value, the icon is rendered for the same items and bound to the same
handler, which is never `bookmarkDeleteClick`, `handleBookmarkClick` and
`handleDeleteClick` are the same programs, and so for every answer of the
store they issue the same store call and perform the same toasts and
refetch. -/
theorem C10_surface_equivalence (convert : JSVal → Int → Except JSVal Bool)
    (pathname : String) (bookmarks : Option (List Props))
    (userInfo item itemId : JSVal) (hp : Card.isBookmarksInUrl pathname = false) :
    Card.isItemBookMarked bookmarks itemId = Trending.isItemBookMarked bookmarks itemId
      ∧ Card.bookmarkIcon convert pathname bookmarks item
          = Trending.bookmarkIcon convert bookmarks item
      ∧ Card.bookmarkIcon convert pathname bookmarks item ≠ .ok (some .bookmarkDeleteClick)
      ∧ Card.handleBookmarkClick userInfo item = Trending.handleBookmarkClick userInfo item
      ∧ Card.handleDeleteClick userInfo item = Trending.handleDeleteClick userInfo item
      ∧ (∀ o : Outcome,
          (Card.handleBookmarkClick userInfo item).sync
              = (Trending.handleBookmarkClick userInfo item).sync
            ∧ (Card.handleBookmarkClick userInfo item).exec o
              = (Trending.handleBookmarkClick userInfo item).exec o
            ∧ (Card.handleDeleteClick userInfo item).sync
              = (Trending.handleDeleteClick userInfo item).sync
            ∧ (Card.handleDeleteClick userInfo item).exec o
              = (Trending.handleDeleteClick userInfo item).exec o) := by
  refine ⟨rfl, ?_, ?_, rfl, rfl, fun _ => ⟨rfl, rfl, rfl, rfl⟩⟩
  · simp [Card.bookmarkIcon, Trending.bookmarkIcon, hp, Card.isItemBookMarked,
      Trending.isItemBookMarked]
  · intro h
    cases hd : isDisplayed convert item with
    | error e => simp [Card.bookmarkIcon, hd, bind, Except.bind] at h
    | ok displayed =>
      cases displayed with
      | false => simp [Card.bookmarkIcon, hd, bind, Except.bind, pure, Except.pure] at h
      | true =>
        cases hg : item.getProp "id" with
        | error e => simp [Card.bookmarkIcon, hd, hp, hg, bind, Except.bind] at h
        | ok id =>
          simp only [Card.bookmarkIcon, hd, hp, hg, bind, Except.bind, Bool.false_eq_true,
            if_false, if_true] at h
          split at h <;> cases h

theorem C10_surface_equivalence_witness :
    Card.isBookmarksInUrl "/movies" = false
      ∧ Card.bookmarkIcon (fun _ _ => .ok false) "/movies"
          (some [[("user", str "u1"), ("itemId", str "7")]])
          (obj 1 [("id", str "7"), ("title", str "Dune")])
        = Trending.bookmarkIcon (fun _ _ => .ok false)
          (some [[("user", str "u1"), ("itemId", str "7")]])
          (obj 1 [("id", str "7"), ("title", str "Dune")]) :=
  ⟨by decide,
    (C10_surface_equivalence (fun _ _ => .ok false) "/movies"
      (some [[("user", str "u1"), ("itemId", str "7")]])
      (obj 0 [("_id", str "u1")]) (obj 1 [("id", str "7"), ("title", str "Dune")]) (str "7")
      (by decide)).2.1⟩

end Bookmarks
